import Mathlib

/-!
Verification of the stock-data relay service (`src/main.py`).

The service fetches market data from an upstream provider, reshapes it into
candlestick/volume/quote schemas, and exposes an LLM-backed analyze endpoint.
We embed the pure transformation logic shallowly: Python floats become `ℚ`,
Python dict rows become structures with `Option` for possibly-absent keys,
upstream I/O becomes explicit oracle parameters, and raised `HTTPException`s
become `Except Nat` (the `Nat` is the HTTP status code).
-/

namespace StockAPI

/-- Models Python `round(x, 2)`: scale by 100, round to the nearest integer,
and scale back.  (Exact halves round half-up here; CPython rounds ties on the
underlying binary float.) -/
def round2 (x : ℚ) : ℚ := (round (x * 100) : ℤ) / 100

/-- One record of the provider's daily time series
(`data["Time Series (Daily)"][date]` in `get_stock_chart`).  Field names
follow the provider keys `1. open` … `8. split coefficient`;
`splitCoefficient` is `none` when the `8. split coefficient` key is absent
(the code reads it with `row.get('8. split coefficient', 1.0)`). -/
structure Row where
  openPrice : ℚ
  high : ℚ
  low : ℚ
  close : ℚ
  adjustedClose : ℚ
  volume : ℤ
  splitCoefficient : Option ℚ
  deriving DecidableEq, Repr

/-- Python `float(row.get('8. split coefficient', 1.0))` in
`get_stock_chart`. -/
def splitCoef (r : Row) : ℚ := r.splitCoefficient.getD 1

/-- Lines 118-121 of `main.py`:
`adjustment_factor = adjusted_close / raw_close if raw_close != 0 else split_coefficient`. -/
def adjustmentFactor (r : Row) : ℚ :=
  if r.close ≠ 0 then r.adjustedClose / r.close else splitCoef r

/-- Output candlestick record. -/
structure Candle where
  time : String
  openPrice : ℚ
  high : ℚ
  low : ℚ
  close : ℚ
  deriving DecidableEq, Repr

/-- Output volume-bar record. -/
structure Volume where
  time : String
  value : ℤ
  color : String
  deriving DecidableEq, Repr

/-- RGBA token emitted for an "up" day. -/
def upColor : String := "rgba(38, 166, 154, 0.4)"

/-- RGBA token emitted for a "down" day. -/
def downColor : String := "rgba(239, 83, 80, 0.4)"

/-- Lines 123-129 of `main.py`: the candle built for one date. -/
def mkCandle (date : String) (r : Row) : Candle :=
  { time := date
    openPrice := round2 (r.openPrice * adjustmentFactor r)
    high := round2 (r.high * adjustmentFactor r)
    low := round2 (r.low * adjustmentFactor r)
    close := round2 r.adjustedClose }

/-- Lines 131-135 of `main.py`: the volume bar built for one date. -/
def mkVolume (date : String) (r : Row) : Volume :=
  { time := date
    value := r.volume
    color := if r.adjustedClose ≥ r.openPrice * adjustmentFactor r then upColor
             else downColor }

/-- The daily time series: the provider JSON object mapping date strings to
rows.  Python dict keys are unique; that invariant is carried as a `Nodup`
hypothesis where needed. -/
def TimeSeries := List (String × Row)

/-- Line 109, `all_dates = sorted(time_series.keys())`: lexicographic
ascending sort of the date keys. -/
def allDates (ts : TimeSeries) : List String :=
  List.insertionSort (· ≤ ·) (ts.map Prod.fst)

/-- Line 112, `time_series[date]`.  Lookup always succeeds for a date drawn
from the key set; the fallback row models the (unreachable) `KeyError`. -/
def getRow (ts : TimeSeries) (d : String) : Row :=
  match List.lookup d ts with
  | some r => r
  | none => ⟨0, 0, 0, 0, 0, 0, none⟩

/-- The `candle_data` list built by the loop at lines 111-138. -/
def chartCandles (ts : TimeSeries) : List Candle :=
  (allDates ts).map (fun d => mkCandle d (getRow ts d))

/-- The `volume_data` list built by the loop at lines 111-138. -/
def chartVolumes (ts : TimeSeries) : List Volume :=
  (allDates ts).map (fun d => mkVolume d (getRow ts d))

/-- A decoded JSON value, for upstream response bodies. -/
inductive JVal where
  | null : JVal
  | bool (b : Bool) : JVal
  | num (q : ℚ) : JVal
  | str (s : String) : JVal
  | arr (elems : List JVal) : JVal
  | obj (fields : List (String × JVal)) : JVal

/-- A decoded upstream JSON body (`response.json()`), as a JSON object. -/
def AVBody := List (String × JVal)

/-- Python `key in data` for a dict body. -/
def hasKey (b : AVBody) (k : String) : Bool :=
  b.any (fun p => p.1 == k)

/-- Outcome of the HTTP round trip inside `fetch_alpha_vantage_data`:
either a transport/timeout failure (`requests.RequestException`) or a
successfully decoded JSON body. -/
inductive UpstreamOutcome where
  | transportError : UpstreamOutcome
  | body (b : AVBody) : UpstreamOutcome

/-- Lines 52-84 of `main.py` (`fetch_alpha_vantage_data`), after the round
trip: classify the outcome by the provider's sentinel keys, raising the
status codes 404/429/503, otherwise return the body unchanged. -/
def fetchAlphaVantageData (outcome : UpstreamOutcome) : Except Nat AVBody :=
  match outcome with
  | .transportError => .error 503
  | .body b =>
    if hasKey b "Error Message" then .error 404
    else if hasKey b "Note" then .error 429
    else if hasKey b "Information" then .error 429
    else .ok b

/-- The parameters of one upstream GET request (function name, symbol, and
extra query parameters), as assembled by `fetch_alpha_vantage_data`. -/
structure FetchCall where
  function : String
  symbol : String
  params : List (String × String)
  deriving DecidableEq, Repr

/-- The upstream call issued by the chart endpoint (line 98):
`fetch_alpha_vantage_data("TIME_SERIES_DAILY_ADJUSTED", symbol.upper(), outputsize="full")`.
The `range_period` query parameter does not appear. -/
def chartFetchCall (symbol : String) : FetchCall :=
  ⟨"TIME_SERIES_DAILY_ADJUSTED", symbol.toUpper, [("outputsize", "full")]⟩

/-- The chart endpoint's JSON response (lines 142-147). -/
structure ChartResponse where
  candleData : List Candle
  volumeData : List Volume
  requestedRange : Option String
  dataType : String
  deriving DecidableEq, Repr

/-- Lines 91-147 of `main.py` (`get_stock_chart`).  `fetch` is the oracle for
`fetch_alpha_vantage_data` at the typed level: `.error c` is a raised
`HTTPException(c)`, `.ok none` a payload without the `Time Series (Daily)`
key (or a falsy payload), `.ok (some ts)` the extracted time series. -/
def getStockChart (fetch : FetchCall → Except Nat (Option TimeSeries))
    (symbol : String) (rangePeriod : Option String) : Except Nat ChartResponse :=
  match fetch (chartFetchCall symbol) with
  | .error c => .error c
  | .ok none => .error 404
  | .ok (some ts) =>
    .ok { candleData := chartCandles ts
          volumeData := chartVolumes ts
          requestedRange := rangePeriod
          dataType := "daily" }

/-- The numeric fields of one provider `Global Quote` record, after the
string-to-number parsing of lines 198-200 (the `%` in `10. change percent`
is already stripped). -/
structure GQ where
  price : ℚ
  change : ℚ
  changePercent : ℚ
  deriving DecidableEq, Repr

/-- One element of the batch endpoint's `quotes` list (lines 202-207). -/
structure Quote where
  symbol : List Char
  price : ℚ
  change : ℚ
  changePercent : ℚ
  deriving DecidableEq, Repr

/-- Lines 202-207 of `main.py`: the quote record appended for one symbol.
Symbols are modelled as character lists so the string processing of the
endpoint stays fully computable. -/
def mkQuote (symbol : List Char) (g : GQ) : Quote :=
  ⟨symbol, round2 g.price, round2 g.change, round2 g.changePercent⟩

/-- Python `s.split(sep)` for a single separator character, on character
lists. -/
def splitOnSep (sep : Char) : List Char → List (List Char)
  | [] => [[]]
  | c :: rest =>
    match splitOnSep sep rest with
    | [] => [[]]
    | part :: parts =>
      if c = sep then [] :: part :: parts else (c :: part) :: parts

/-- Python `s.strip()`: drop whitespace from both ends. -/
def stripChars (l : List Char) : List Char :=
  ((l.dropWhile Char.isWhitespace).reverse.dropWhile Char.isWhitespace).reverse

/-- Python `s.upper()` (ASCII, which covers stock symbols). -/
def upperChars (l : List Char) : List Char := l.map Char.toUpper

/-- The normalised symbol list of line 186:
`[s.strip().upper() for s in symbols.split(',')]`. -/
def symbolList (symbols : List Char) : List (List Char) :=
  (splitOnSep ',' symbols).map (fun s => upperChars (stripChars s))

/-- Lines 183-215 of `main.py` (`get_multiple_quotes`).  `fetch` is the
per-symbol oracle: `none` covers every swallowed per-symbol failure (a raised
`HTTPException`, a missing `Global Quote` or `01. symbol` key, or a parse
error), `some g` a successfully parsed quote record.  The loop appends the
successes in order; `filterMap` is that loop. -/
def getMultipleQuotes (fetch : List Char → Option GQ) (symbols : List Char) :
    Except Nat (List Quote) :=
  let quotes := (symbolList symbols).filterMap (fun s => (fetch s).map (mkQuote s))
  if quotes.isEmpty then .error 404 else .ok quotes

/-- One element of the client-supplied `priceData` list: a price point whose
`close` key may be absent (the code reads it with `point.get('close', 0)`). -/
structure PricePoint where
  close : Option ℚ
  deriving DecidableEq, Repr

/-- Python `point.get('close', 0)`. -/
def getClose (p : PricePoint) : ℚ := p.close.getD 0

/-- Python `max` over a list: fails on an empty list, otherwise folds `max`
over the elements. -/
def listMax : List ℚ → Option ℚ
  | [] => none
  | x :: xs => some (xs.foldl max x)

/-- Python `min` over a list: fails on an empty list, otherwise folds `min`
over the elements. -/
def listMin : List ℚ → Option ℚ
  | [] => none
  | x :: xs => some (xs.foldl min x)

/-- The five statistics computed by `analyze_stock`. -/
structure Stats where
  startPrice : ℚ
  endPrice : ℚ
  highPrice : ℚ
  lowPrice : ℚ
  volatility : ℚ
  deriving DecidableEq, Repr

/-- Lines 229-237 of `main.py`: the statistics step of `analyze_stock`.
`none` models a raised exception (e.g. `max`/`min` of an empty sequence,
or indexing an empty list), which the endpoint would surface as a 500. -/
def analyzeStats (priceData : List PricePoint) : Option Stats :=
  if priceData.isEmpty then
    some ⟨0, 0, 0, 0, 0⟩
  else do
    let first ← priceData.head?
    let lastPoint ← priceData.getLast?
    let startPrice := getClose first
    let endPrice := getClose lastPoint
    let prices := priceData.map getClose
    let highPrice ← listMax prices
    let lowPrice ← listMin prices
    let volatility :=
      if lowPrice > 0 then round2 ((highPrice - lowPrice) / lowPrice * 100) else 0
    some ⟨startPrice, endPrice, highPrice, lowPrice, volatility⟩

/-- Lines 239-244 of `main.py` (`format_date`), on strings (modelled as
character lists): a 10-character string splitting into exactly three
dash-separated parts is reassembled as `part3-part2-part1`; anything else is
returned unchanged. -/
def formatDate (s : List Char) : List Char :=
  if s.length = 10 then
    match splitOnSep '-' s with
    | [p0, p1, p2] => p2 ++ '-' :: p1 ++ '-' :: p0
    | _ => s
  else s

/-- The exact `YYYY-MM-DD` shape: four digits, a dash, two digits, a dash,
two digits. -/
def isYMD : List Char → Bool
  | [y1, y2, y3, y4, s1, m1, m2, s2, d1, d2] =>
    y1.isDigit && y2.isDigit && y3.isDigit && y4.isDigit && s1 = '-' &&
    m1.isDigit && m2.isDigit && s2 = '-' && d1.isDigit && d2.isDigit
  | _ => false

/-- A concrete three-day time series (deliberately out of order), used to
exercise the chart pipeline. -/
def ts0 : TimeSeries :=
  [("2024-01-03", ⟨7, 9, 6, 8, 8, 300, none⟩),
   ("2024-01-01", ⟨10, 20, 5, 8, 4, 100, none⟩),
   ("2024-01-02", ⟨11, 21, 6, 0, 4, 200, some 2⟩)]

/-- A chart-endpoint oracle that always returns `ts0`. -/
def fetchChart0 : FetchCall → Except Nat (Option TimeSeries) :=
  fun _ => .ok (some ts0)

/-- A per-symbol quote oracle that succeeds for `AAPL` and `MSFT` and fails
for everything else. -/
def fetchQuotes0 : List Char → Option GQ :=
  fun s =>
    if s = "AAPL".toList ∨ s = "MSFT".toList then some ⟨187.375, -1.125, -0.596⟩
    else none

/-- A concrete raw symbols query string with spacing, casing, and one bad
symbol. -/
def symbols0 : List Char := "AAPL,badsym, msft".toList

/-- The statistics for the concrete price sequence `[0, 5]` (its low of 0
exercises the division guard). -/
def st0 : Stats := ⟨0, 5, 5, 0, 0⟩

/-- A price point closing at 0. -/
def pp0 : PricePoint := ⟨some 0⟩

/-- A price point closing at 5. -/
def pp5 : PricePoint := ⟨some 5⟩

end StockAPI

namespace StockAPI

/-- C1: for every daily record with nonzero raw close, the adjustment factor
is `adjustedClose / rawClose`, the candle's open/high/low are the raw values
scaled by that factor and rounded to 2 decimal places, and the candle's close
is the provider's adjusted close rounded to 2 decimal places. -/
theorem chart_candle_adjustment_C1 (d : String) (r : Row) (h : r.close ≠ 0) :
    adjustmentFactor r = r.adjustedClose / r.close ∧
    mkCandle d r =
      { time := d
        openPrice := round2 (r.openPrice * (r.adjustedClose / r.close))
        high := round2 (r.high * (r.adjustedClose / r.close))
        low := round2 (r.low * (r.adjustedClose / r.close))
        close := round2 r.adjustedClose } := by
  have hf : adjustmentFactor r = r.adjustedClose / r.close := by
    unfold adjustmentFactor
    exact if_pos h
  exact ⟨hf, by rw [mkCandle, hf]⟩

/-- Witness for C1 at a concrete record (raw close 8, adjusted close 4). -/
theorem chart_candle_adjustment_C1_witness :
    adjustmentFactor ⟨10, 20, 5, 8, 4, 100, none⟩ = (4 : ℚ) / 8 ∧
    mkCandle "2024-01-02" ⟨10, 20, 5, 8, 4, 100, none⟩ =
      { time := "2024-01-02"
        openPrice := round2 (10 * ((4 : ℚ) / 8))
        high := round2 (20 * ((4 : ℚ) / 8))
        low := round2 (5 * ((4 : ℚ) / 8))
        close := round2 4 } :=
  chart_candle_adjustment_C1 "2024-01-02" ⟨10, 20, 5, 8, 4, 100, none⟩
    (by show (8 : ℚ) ≠ 0; norm_num)

/-- C2: for every daily record with raw close 0, the adjustment factor is the
split coefficient (no division happens), and 1 when the split-coefficient
field is absent. -/
theorem chart_zero_close_split_fallback_C2 (r : Row) (h : r.close = 0) :
    adjustmentFactor r = splitCoef r ∧
    (r.splitCoefficient = none → adjustmentFactor r = 1) := by
  have hf : adjustmentFactor r = splitCoef r := by
    unfold adjustmentFactor
    exact if_neg (fun hc => hc h)
  refine ⟨hf, fun hn => ?_⟩
  rw [hf]
  unfold splitCoef
  rw [hn]
  rfl

/-- Witness for C2 at a concrete record with raw close 0 and no
split-coefficient field. -/
theorem chart_zero_close_split_fallback_C2_witness :
    adjustmentFactor ⟨10, 20, 5, 0, 4, 100, none⟩ = 1 :=
  (chart_zero_close_split_fallback_C2 ⟨10, 20, 5, 0, 4, 100, none⟩ rfl).2 rfl

/-- C4: the volume bar's color is the fixed "up" token iff the adjusted close
is at least the adjusted open (`openPrice * adjustmentFactor`), and the fixed
"down" token otherwise. -/
theorem volume_color_up_down_C4 (d : String) (r : Row) :
    ((mkVolume d r).color = upColor ↔
      r.adjustedClose ≥ r.openPrice * adjustmentFactor r) ∧
    ((mkVolume d r).color = downColor ↔
      ¬ r.adjustedClose ≥ r.openPrice * adjustmentFactor r) := by
  have hne : upColor ≠ downColor := by decide
  by_cases h : r.adjustedClose ≥ r.openPrice * adjustmentFactor r
  · exact ⟨by simp [mkVolume, if_pos h, h], by simp [mkVolume, if_pos h, h, hne]⟩
  · exact ⟨by simp [mkVolume, if_neg h, h, hne.symm], by simp [mkVolume, if_neg h, h]⟩

/-- Witness for C4 at a concrete record (adjusted close 4 below the adjusted
open 5, a down day). -/
theorem volume_color_up_down_C4_witness :
    ((mkVolume "2024-01-02" ⟨10, 20, 5, 8, 4, 100, none⟩).color = upColor ↔
      Row.adjustedClose ⟨10, 20, 5, 8, 4, 100, none⟩ ≥
        Row.openPrice ⟨10, 20, 5, 8, 4, 100, none⟩ *
          adjustmentFactor ⟨10, 20, 5, 8, 4, 100, none⟩) ∧
    ((mkVolume "2024-01-02" ⟨10, 20, 5, 8, 4, 100, none⟩).color = downColor ↔
      ¬ Row.adjustedClose ⟨10, 20, 5, 8, 4, 100, none⟩ ≥
        Row.openPrice ⟨10, 20, 5, 8, 4, 100, none⟩ *
          adjustmentFactor ⟨10, 20, 5, 8, 4, 100, none⟩) :=
  volume_color_up_down_C4 "2024-01-02" ⟨10, 20, 5, 8, 4, 100, none⟩

/-- C3: when the input time series has distinct date keys (a dict invariant),
the dates of the emitted candleData are strictly ascending and are exactly a
permutation of the input's date set — nothing dropped, added, or
duplicated. -/
theorem chart_dates_sorted_exact_C3 (ts : TimeSeries)
    (h : (ts.map Prod.fst).Nodup) :
    ((chartCandles ts).map Candle.time).Pairwise (· < ·) ∧
    ((chartCandles ts).map Candle.time).Perm (ts.map Prod.fst) := by
  have hdates : (chartCandles ts).map Candle.time = allDates ts := by
    simp [chartCandles, mkCandle, List.map_map, Function.comp_def]
  rw [hdates]
  have hperm : (allDates ts).Perm (ts.map Prod.fst) :=
    List.perm_insertionSort _ _
  have hsorted : List.Sorted (· ≤ ·) (allDates ts) :=
    List.sorted_insertionSort _ _
  have hnodup : (allDates ts).Nodup := hperm.symm.nodup h
  exact ⟨hsorted.lt_of_le hnodup, hperm⟩

/-- Witness for C3 on the concrete out-of-order series `ts0`. -/
theorem chart_dates_sorted_exact_C3_witness :
    ((chartCandles ts0).map Candle.time).Pairwise (· < ·) ∧
    ((chartCandles ts0).map Candle.time).Perm (ts0.map Prod.fst) :=
  chart_dates_sorted_exact_C3 ts0 (by decide)

/-- C9: for any upstream oracle and symbol, two runs of the chart endpoint
with different range hints produce the same candleData, volumeData, and
dataType; the hint only shows up echoed as `requestedRange`, and the data
type is always `"daily"`. -/
theorem chart_range_hint_noninterference_C9
    (fetch : FetchCall → Except Nat (Option TimeSeries)) (symbol : String)
    (r1 r2 : Option String) :
    getStockChart fetch symbol r1 =
      (getStockChart fetch symbol r2).map
        (fun resp => { resp with requestedRange := r1 }) ∧
    (∀ resp, getStockChart fetch symbol r1 = .ok resp →
      resp.dataType = "daily" ∧ resp.requestedRange = r1) := by
  unfold getStockChart
  cases hf : fetch (chartFetchCall symbol) with
  | error c =>
    exact ⟨rfl, by intro resp hr; cases hr⟩
  | ok o =>
    cases o with
    | none => exact ⟨rfl, by intro resp hr; cases hr⟩
    | some ts =>
      refine ⟨rfl, fun resp hr => ?_⟩
      cases hr
      exact ⟨rfl, rfl⟩

/-- Witness for C9: running the endpoint on the `ts0` oracle with hint `"1y"`
yields a response whose dataType is `"daily"` and whose requestedRange echoes
the hint. -/
theorem chart_range_hint_noninterference_C9_witness :
    ({ candleData := chartCandles ts0
       volumeData := chartVolumes ts0
       requestedRange := some "1y"
       dataType := "daily" } : ChartResponse).dataType = "daily" ∧
    ({ candleData := chartCandles ts0
       volumeData := chartVolumes ts0
       requestedRange := some "1y"
       dataType := "daily" } : ChartResponse).requestedRange = some "1y" :=
  (chart_range_hint_noninterference_C9 fetchChart0 "ibm" (some "1y") (some "5d")).2
    _ rfl

/-- C6: the market-data client maps a transport/timeout failure to 503 and
classifies a decoded body by its sentinel keys: the `Error Message` key gives
404; absent that, a `Note` or `Information` key gives 429; with no sentinel
key present the body is returned unmodified. -/
theorem fetch_sentinel_classification_C6 (b : AVBody) :
    fetchAlphaVantageData .transportError = .error 503 ∧
    (hasKey b "Error Message" = true →
      fetchAlphaVantageData (.body b) = .error 404) ∧
    (hasKey b "Error Message" = false →
      hasKey b "Note" = true ∨ hasKey b "Information" = true →
      fetchAlphaVantageData (.body b) = .error 429) ∧
    (hasKey b "Error Message" = false → hasKey b "Note" = false →
      hasKey b "Information" = false →
      fetchAlphaVantageData (.body b) = .ok b) := by
  refine ⟨rfl, fun he => ?_, fun he hn => ?_, fun he hn hi => ?_⟩
  · simp [fetchAlphaVantageData, he]
  · rcases hn with hn | hn <;> simp [fetchAlphaVantageData, he, hn]
  · simp [fetchAlphaVantageData, he, hn, hi]

/-- Witness for C6 on a concrete body carrying only the rate-limit `Note`
sentinel. -/
theorem fetch_sentinel_classification_C6_witness :
    fetchAlphaVantageData (.body [("Note", JVal.str "limit")]) = .error 429 :=
  (fetch_sentinel_classification_C6 [("Note", JVal.str "limit")]).2.2.1
    rfl (Or.inl rfl)

/-- C5: the batch-quote endpoint trims and upper-cases each comma-separated
symbol, swallows per-symbol failures, responds 404 exactly when no symbol
yields a quote, and otherwise returns exactly the quotes of the symbols that
succeeded, in order. -/
theorem batch_quotes_partial_success_C5 (fetch : List Char → Option GQ)
    (symbols : List Char) :
    (getMultipleQuotes fetch symbols = .error 404 ↔
      ∀ s ∈ symbolList symbols, fetch s = none) ∧
    ((∃ s ∈ symbolList symbols, fetch s ≠ none) →
      getMultipleQuotes fetch symbols =
        .ok ((symbolList symbols).filterMap
          (fun s => (fetch s).map (mkQuote s)))) := by
  simp only [getMultipleQuotes]
  by_cases h :
      ((symbolList symbols).filterMap (fun s => (fetch s).map (mkQuote s))).isEmpty
  · have hall : ∀ s ∈ symbolList symbols, fetch s = none := by
      intro s hs
      exact Option.map_eq_none'.mp
        (List.filterMap_eq_nil_iff.mp (List.isEmpty_iff.mp h) s hs)
    rw [if_pos h]
    refine ⟨iff_of_true rfl hall, fun hex => ?_⟩
    obtain ⟨s, hs, hne⟩ := hex
    exact absurd (hall s hs) hne
  · rw [if_neg h]
    refine ⟨⟨fun hcontra => ?_, fun hall => ?_⟩, fun _ => rfl⟩
    · cases hcontra
    · exact absurd
        (List.isEmpty_iff.mpr (List.filterMap_eq_nil_iff.mpr
          (fun s hs => Option.map_eq_none'.mpr (hall s hs)))) h

/-- Witness for C5: with an oracle failing on `BADSYM`, the endpoint returns
the successful subset for `"AAPL,badsym, msft"`. -/
theorem batch_quotes_partial_success_C5_witness :
    getMultipleQuotes fetchQuotes0 symbols0 =
      .ok ((symbolList symbols0).filterMap
        (fun s => (fetchQuotes0 s).map (mkQuote s))) :=
  (batch_quotes_partial_success_C5 fetchQuotes0 symbols0).2 (by decide)

/-- C10: on an empty priceData sequence the statistics step does not fail —
it yields all-zero statistics (no `max`/`min` of an empty sequence is ever
taken), so prompt construction proceeds with those zeros. -/
theorem analyze_empty_priceData_C10 :
    analyzeStats [] = some ⟨0, 0, 0, 0, 0⟩ := rfl

/-- Folding `max` over a list yields an element of the seed or the list. -/
theorem foldl_max_mem (a : ℚ) (l : List ℚ) : l.foldl max a ∈ a :: l := by
  induction l generalizing a with
  | nil => simp
  | cons b l ih =>
    simp only [List.foldl_cons]
    rcases List.mem_cons.mp (ih (max a b)) with h | h
    · rcases max_choice a b with hm | hm <;> rw [hm] at h <;> rw [hm] <;> simp [h]
    · simp [h]

/-- Folding `max` bounds the seed and every list element from above. -/
theorem le_foldl_max (a : ℚ) (l : List ℚ) :
    a ≤ l.foldl max a ∧ ∀ x ∈ l, x ≤ l.foldl max a := by
  induction l generalizing a with
  | nil => simp
  | cons b l ih =>
    simp only [List.foldl_cons]
    obtain ⟨h1, h2⟩ := ih (max a b)
    refine ⟨le_trans (le_max_left a b) h1, ?_⟩
    intro x hx
    rcases List.mem_cons.mp hx with rfl | hx
    · exact le_trans (le_max_right a x) h1
    · exact h2 x hx

/-- Folding `min` over a list yields an element of the seed or the list. -/
theorem foldl_min_mem (a : ℚ) (l : List ℚ) : l.foldl min a ∈ a :: l := by
  induction l generalizing a with
  | nil => simp
  | cons b l ih =>
    simp only [List.foldl_cons]
    rcases List.mem_cons.mp (ih (min a b)) with h | h
    · rcases min_choice a b with hm | hm <;> rw [hm] at h <;> rw [hm] <;> simp [h]
    · simp [h]

/-- Folding `min` bounds the seed and every list element from below. -/
theorem foldl_min_le (a : ℚ) (l : List ℚ) :
    l.foldl min a ≤ a ∧ ∀ x ∈ l, l.foldl min a ≤ x := by
  induction l generalizing a with
  | nil => simp
  | cons b l ih =>
    simp only [List.foldl_cons]
    obtain ⟨h1, h2⟩ := ih (min a b)
    refine ⟨le_trans h1 (min_le_left a b), ?_⟩
    intro x hx
    rcases List.mem_cons.mp hx with rfl | hx
    · exact le_trans h1 (min_le_right a x)
    · exact h2 x hx

/-- Evaluation of the statistics step on a nonempty priceData list. -/
theorem analyzeStats_cons (p : PricePoint) (t : List PricePoint) :
    analyzeStats (p :: t) =
      some ⟨getClose p,
            getClose ((p :: t).getLast (List.cons_ne_nil p t)),
            (t.map getClose).foldl max (getClose p),
            (t.map getClose).foldl min (getClose p),
            if (t.map getClose).foldl min (getClose p) > 0 then
              round2 (((t.map getClose).foldl max (getClose p) -
                  (t.map getClose).foldl min (getClose p)) /
                (t.map getClose).foldl min (getClose p) * 100)
            else 0⟩ := by
  rw [analyzeStats, List.getLast?_eq_getLast (p :: t) (List.cons_ne_nil p t)]
  simp [listMax, listMin]

/-- C7 counterexample: on closes `[-10, -5]` the code's volatility is 0 (the
guard is `low > 0`, not `low ≠ 0`), while the claimed formula
`round((high-low)/low*100, 2)` evaluates to `-50` — the claim as stated fails
on a negative low even though no division by zero occurs. -/
theorem analyze_volatility_guard_counterexample_C7 :
    analyzeStats [⟨some (-10)⟩, ⟨some (-5)⟩] = some ⟨-10, -5, -5, -10, 0⟩ ∧
    round2 (((-5 : ℚ) - (-10)) / (-10) * 100) = -50 ∧
    (0 : ℚ) ≠ -50 := by
  refine ⟨by decide, ?_, by norm_num⟩
  rw [round2, round_eq]
  norm_num

/-- C7 (amended): for a nonempty price sequence, the start price is the first
point's close, the end price the last point's close, high and low the maximum
and minimum over all closes, and volatility is `round((high-low)/low*100, 2)`
when `low > 0` and 0 otherwise (which includes the division-by-zero case
`low = 0`). -/
theorem analyze_stats_amended_C7 (p : PricePoint) (t : List PricePoint)
    (st : Stats) (h : analyzeStats (p :: t) = some st) :
    st.startPrice = getClose p ∧
    st.endPrice = getClose ((p :: t).getLast (List.cons_ne_nil p t)) ∧
    st.highPrice ∈ (p :: t).map getClose ∧
    (∀ x ∈ (p :: t).map getClose, x ≤ st.highPrice) ∧
    st.lowPrice ∈ (p :: t).map getClose ∧
    (∀ x ∈ (p :: t).map getClose, st.lowPrice ≤ x) ∧
    st.volatility = (if st.lowPrice > 0 then
      round2 ((st.highPrice - st.lowPrice) / st.lowPrice * 100) else 0) := by
  rw [analyzeStats_cons] at h
  have hst := Option.some.inj h
  subst hst
  refine ⟨rfl, rfl, ?_, ?_, ?_, ?_, rfl⟩
  · rw [List.map_cons]
    exact foldl_max_mem (getClose p) (t.map getClose)
  · intro x hx
    rw [List.map_cons] at hx
    rcases List.mem_cons.mp hx with hx' | hx'
    · exact hx' ▸ (le_foldl_max (getClose p) (t.map getClose)).1
    · exact (le_foldl_max (getClose p) (t.map getClose)).2 x hx'
  · rw [List.map_cons]
    exact foldl_min_mem (getClose p) (t.map getClose)
  · intro x hx
    rw [List.map_cons] at hx
    rcases List.mem_cons.mp hx with hx' | hx'
    · exact hx' ▸ (foldl_min_le (getClose p) (t.map getClose)).1
    · exact (foldl_min_le (getClose p) (t.map getClose)).2 x hx'

/-- Witness for amended C7 on the concrete price sequence `[0, 5]` (whose
low of 0 takes the guard branch). -/
theorem analyze_stats_amended_C7_witness :
    st0.startPrice = getClose pp0 ∧
    st0.endPrice = getClose ((pp0 :: [pp5]).getLast (List.cons_ne_nil pp0 [pp5])) ∧
    st0.highPrice ∈ (pp0 :: [pp5]).map getClose ∧
    (∀ x ∈ (pp0 :: [pp5]).map getClose, x ≤ st0.highPrice) ∧
    st0.lowPrice ∈ (pp0 :: [pp5]).map getClose ∧
    (∀ x ∈ (pp0 :: [pp5]).map getClose, st0.lowPrice ≤ x) ∧
    st0.volatility = (if st0.lowPrice > 0 then
      round2 ((st0.highPrice - st0.lowPrice) / st0.lowPrice * 100) else 0) :=
  analyze_stats_amended_C7 pp0 [pp5] st0 (by decide)

/-- C8 counterexample: `"ab-cd-efgh"` does not match the `YYYY-MM-DD` shape,
yet the formatter rearranges it (to `"efgh-cd-ab"`) instead of returning it
unchanged — the code only checks for length 10 and three dash-separated
parts, not for digits. -/
theorem format_date_malformed_counterexample_C8 :
    isYMD "ab-cd-efgh".toList = false ∧
    formatDate "ab-cd-efgh".toList ≠ "ab-cd-efgh".toList :=
  ⟨by decide, by decide⟩

/-- C8 (amended): every string of the exact `YYYY-MM-DD` digit shape is
reformatted to `DD-MM-YYYY`; every 10-character string splitting into exactly
three dash-separated parts (malformed or not) is rearranged as
`part3-part2-part1`; and a string is returned unchanged whenever it fails
that length-10/three-parts check. -/
theorem format_date_amended_C8 :
    (∀ y1 y2 y3 y4 m1 m2 d1 d2 : Char,
      y1.isDigit = true → y2.isDigit = true → y3.isDigit = true →
      y4.isDigit = true → m1.isDigit = true → m2.isDigit = true →
      d1.isDigit = true → d2.isDigit = true →
      formatDate [y1, y2, y3, y4, '-', m1, m2, '-', d1, d2] =
        [d1, d2, '-', m1, m2, '-', y1, y2, y3, y4]) ∧
    (∀ s p0 p1 p2 : List Char, s.length = 10 →
      splitOnSep '-' s = [p0, p1, p2] →
      formatDate s = p2 ++ '-' :: p1 ++ '-' :: p0) ∧
    (∀ s : List Char, (s.length = 10 → (splitOnSep '-' s).length ≠ 3) →
      formatDate s = s) := by
  refine ⟨?_, ?_, ?_⟩
  · intro y1 y2 y3 y4 m1 m2 d1 d2 h1 h2 h3 h4 h5 h6 h7 h8
    have hne : ∀ c : Char, c.isDigit = true → ¬ c = '-' := by
      intro c hc he
      rw [he] at hc
      exact absurd hc (by decide)
    have hs : splitOnSep '-' [y1, y2, y3, y4, '-', m1, m2, '-', d1, d2] =
        [[y1, y2, y3, y4], [m1, m2], [d1, d2]] := by
      simp [splitOnSep, hne y1 h1, hne y2 h2, hne y3 h3, hne y4 h4,
        hne m1 h5, hne m2 h6, hne d1 h7, hne d2 h8]
    rw [formatDate,
      if_pos (show [y1, y2, y3, y4, '-', m1, m2, '-', d1, d2].length = 10 by simp),
      hs]
    rfl
  · intro s p0 p1 p2 hl hsp
    rw [formatDate, if_pos hl, hsp]
  · intro s h
    rw [formatDate]
    by_cases hl : s.length = 10
    · rw [if_pos hl]
      have h3 := h hl
      cases hsp : splitOnSep '-' s with
      | nil => rfl
      | cons p0 ps =>
        cases ps with
        | nil => rfl
        | cons p1 ps2 =>
          cases ps2 with
          | nil => rfl
          | cons p2 ps3 =>
            cases ps3 with
            | nil =>
              rw [hsp] at h3
              simp at h3
            | cons p3 ps4 => rfl
    · rw [if_neg hl]

/-- Witness for amended C8: `"2024-03-05"` becomes `"05-03-2024"`, and the
malformed 10-character three-part string `"ab-cd-efgh"` is rearranged as
`part3-part2-part1`. -/
theorem format_date_amended_C8_witness :
    formatDate ['2', '0', '2', '4', '-', '0', '3', '-', '0', '5'] =
      ['0', '5', '-', '0', '3', '-', '2', '0', '2', '4'] ∧
    formatDate ['a', 'b', '-', 'c', 'd', '-', 'e', 'f', 'g', 'h'] =
      ['e', 'f', 'g', 'h'] ++ '-' :: ['c', 'd'] ++ '-' :: ['a', 'b'] :=
  ⟨format_date_amended_C8.1 '2' '0' '2' '4' '0' '3' '0' '5' (by decide) (by decide)
    (by decide) (by decide) (by decide) (by decide) (by decide) (by decide),
   format_date_amended_C8.2.1 ['a', 'b', '-', 'c', 'd', '-', 'e', 'f', 'g', 'h']
    ['a', 'b'] ['c', 'd'] ['e', 'f', 'g', 'h'] (by decide) (by decide)⟩

end StockAPI
